import Mathlib

set_option maxRecDepth 40000

/-!
Verification of the STRATUS-style SRE remediation workflow.

The development shallowly embeds the Python sources: the string helpers mirror
the Python `str` operations the code relies on (`in`, `lower`, `upper`,
`strip`, `replace`, `split`), the Docker tools (`src/tools/docker_tools.py`)
become message-producing functions over an explicit external world, the agents
(`src/agents/*.py`) become state transformers over the `SystemState` record
(`src/models/states.py`), and the LangGraph workflow (`src/graph.py`) becomes
an executable run function producing the terminal state, the emitted event
trace, and the list of mutating Target Controller calls.
-/

/-! ## Python-style string primitives -/

/-- Does the list start with the given pattern? (Python `str.startswith`.) -/
def startsW : List Char → List Char → Bool
  | [], _ => true
  | _ :: _, [] => false
  | a :: as, b :: bs => a == b && startsW as bs

/-- Python `needle in hay` on char lists. -/
def hasSub (needle : List Char) : List Char → Bool
  | [] => needle.isEmpty
  | c :: cs => startsW needle (c :: cs) || hasSub needle cs

/-- Python `needle in hay` for strings. -/
def strHas (hay needle : String) : Bool := hasSub needle.toList hay.toList

/-- ASCII lower-casing of one character (what Python `str.lower` does on the
ASCII strings this code handles). -/
def lowerChar (c : Char) : Char :=
  if 'A' ≤ c && c ≤ 'Z' then Char.ofNat (c.toNat + 32) else c

/-- ASCII upper-casing of one character. -/
def upperChar (c : Char) : Char :=
  if 'a' ≤ c && c ≤ 'z' then Char.ofNat (c.toNat - 32) else c

/-- Python `s.lower()`. -/
def pyLower (s : String) : String := ⟨s.toList.map lowerChar⟩

/-- Python `s.upper()`. -/
def pyUpper (s : String) : String := ⟨s.toList.map upperChar⟩

/-- Python whitespace test used by `str.strip`. -/
def isWs (c : Char) : Bool := c == ' ' || c == '\n' || c == '\t' || c == '\r'

/-- Python `s.strip()`. -/
def pyStrip (s : String) : String :=
  ⟨((s.toList.dropWhile isWs).reverse.dropWhile isWs).reverse⟩

/-- Python `s.replace(pat, rep)` on char lists; `fuel` bounds the scan and is
supplied as the length of the list, which always suffices. -/
def replSub (pat rep : List Char) : Nat → List Char → List Char
  | 0, l => l
  | _ + 1, [] => []
  | fuel + 1, c :: cs =>
    if !pat.isEmpty && startsW pat (c :: cs) then
      rep ++ replSub pat rep fuel (List.drop (pat.length - 1) cs)
    else c :: replSub pat rep fuel cs

/-- Python `s.replace(pat, rep)`. -/
def pyReplace (s pat rep : String) : String :=
  ⟨replSub pat.toList rep.toList s.toList.length s.toList⟩

/-- Python `s.split("\n")` on char lists. -/
def splitNl : List Char → List (List Char)
  | [] => [[]]
  | c :: cs =>
    if c == '\n' then [] :: splitNl cs
    else
      match splitNl cs with
      | [] => [[c]]
      | g :: gs => (c :: g) :: gs

/-- Python `s.split("\n")`. -/
def pySplitNl (s : String) : List String := (splitNl s.toList).map (fun l => ⟨l⟩)

/-! ## Data model (`src/models/schemas.py`)

The Python `Literal`-typed fields are embedded as `String`s carrying the same
literal values. -/

/-- `Symptom` (schemas.py). -/
structure Symptom where
  service_name : String
  symptom_type : String
  severity : String
  evidence : String
  affected_endpoints : List String
deriving DecidableEq, Repr

/-- `SymptomList` (schemas.py): the Triage structured LLM output. -/
structure SymptomList where
  symptoms : List Symptom
  overall_status : String
  summary : String
deriving DecidableEq, Repr

/-- `MitigationPlan` (schemas.py): the Planner structured LLM output. -/
structure MitigationPlan where
  root_cause : String
  target_service : String
  action_type : String
  config_content : Option String
  reasoning : String
  estimated_impact : String
deriving DecidableEq, Repr

/-- `MitigationResult` (schemas.py); the agents pass it around as a dict with
exactly these keys. -/
structure MitigationResult where
  success : Bool
  action_taken : String
  message : String
  target_service : String
deriving DecidableEq, Repr

/-- `ServiceHealth` (schemas.py). -/
structure ServiceHealth where
  service_name : String
  container_status : String
  http_status : Option Nat
  is_healthy : Bool
  error_message : Option String
deriving DecidableEq, Repr

/-- `SystemState` (`src/models/states.py`), the LangGraph parent state. -/
structure SystemState where
  services_health : List ServiceHealth
  container_logs : String
  metrics_data : String
  tracing_data : String
  symptoms : List Symptom
  triage_summary : String
  mitigation_plan : Option MitigationPlan
  mitigation_result : Option MitigationResult
  attempt_count : Nat
  max_retries : Nat
  pre_fix_health : String
  overall_status : String
  resolution : String
  actions_taken : List String
deriving DecidableEq, Repr

/-- The initial state built in `src/main_v2.py` (`attempt_count = 0`,
`max_retries` from configuration; the spec requires it positive, default 3). -/
def initState (mr : Nat) : SystemState :=
  { services_health := []
    container_logs := ""
    metrics_data := ""
    tracing_data := ""
    symptoms := []
    triage_summary := ""
    mitigation_plan := none
    mitigation_result := none
    attempt_count := 0
    max_retries := mr
    pre_fix_health := ""
    overall_status := ""
    resolution := ""
    actions_taken := [] }

/-! ## Target Controller (`src/tools/docker_tools.py`)

The Docker daemon and the network are the external world; each controller
operation is embedded as the function from that world to the exact message
string the Python tool returns. -/

/-- A container known to the Docker daemon: its name and status string. -/
structure Container where
  name : String
  status : String
deriving DecidableEq, Repr

/-- `MANAGED_CONTAINERS` (docker_tools.py line 14). -/
def MANAGED_CONTAINERS : List String :=
  ["order-service", "product-service", "payment-service", "api-gateway"]

/-- `_get_container`: name lookup in the daemon, `none` when not found. -/
def getContainer (cs : List Container) (name : String) : Option Container :=
  cs.find? (fun c => c.name == name)

/-- The Docker-daemon side of the world seen by `restart_container`. -/
structure DockerWorld where
  containers : List Container
  restartFail : Option String
  statusAfter : String
deriving Repr

/-- `restart_container(service_name)`: the exact message the tool returns.
`restartFail` carries the exception text when `container.restart` raises. -/
def restart_container (w : DockerWorld) (service_name : String) : String :=
  match getContainer w.containers service_name with
  | none => "Error: Container '" ++ service_name ++ "' not found"
  | some _ =>
    match w.restartFail with
    | some e => "Error restarting '" ++ service_name ++ "': " ++ e
    | none =>
      "Container '" ++ service_name ++ "' restarted successfully. Status: "
        ++ w.statusAfter

/-- The possible outcomes of `apply_nginx_config`, one per return path. -/
inductive ApplyOutcome where
  | notFound
  | writeFail (out : String)
  | testFail (out : String)
  | reloadFail (out : String)
  | applied
  | raised (err : String)
deriving DecidableEq, Repr

/-- `apply_nginx_config(config_content)`: the message for each return path. -/
def apply_nginx_config : ApplyOutcome → String
  | .notFound => "Error: api-gateway container not found"
  | .writeFail o => "Failed to write config: " ++ o
  | .testFail o => "Config test FAILED (auto-rolled back): " ++ o
  | .reloadFail o => "Reload FAILED: " ++ o
  | .applied => "Nginx config applied and reloaded successfully."
  | .raised e => "Error applying config: " ++ e

/-- The possible outcomes of `rollback_nginx_config`, one per return path. -/
inductive RollbackOutcome where
  | notFound
  | noBackup
  | restored
  | raised (err : String)
deriving DecidableEq, Repr

/-- `rollback_nginx_config()`: the message for each return path. -/
def rollback_nginx_config : RollbackOutcome → String
  | .notFound => "Error: api-gateway container not found"
  | .noBackup => "No backup found to rollback"
  | .restored => "Rollback completed. Nginx restarted with previous config."
  | .raised e => "Error during rollback: " ++ e

/-! ## Telemetry probes and the Validation Oracle (`src/agents/undo_agent.py`)

`check_all_services_health` and the HTTP probes read the world at one instant.
An `Option Nat` is an HTTP status code, `none` meaning the request raised
(timeout / connection refused).  `healthHTTP` is the per-service request made
inside `check_all_services_health`; `directHTTP` is the separate per-service
request made by Oracle 3 of `validation_oracle_v2` (a distinct request at a
later instant, so it may differ). -/

/-- The world seen by one verification (or triage) pass. -/
structure ProbeWorld where
  containers : List Container
  healthHTTP : String → Option Nat
  rootHTTP : Option Nat
  productsHTTP : Option Nat
  directHTTP : String → Option Nat
  errText : String

/-- The keys of `health_endpoints` in `check_all_services_health`. -/
def health_endpoints : List String :=
  ["order-service", "product-service", "payment-service"]

/-- One line of `check_all_services_health` output for a managed container. -/
def serviceLine (w : ProbeWorld) (name : String) : String :=
  match getContainer w.containers name with
  | none => name ++ ": NOT_FOUND"
  | some c =>
    if c.status != "running" then name ++ ": CONTAINER_" ++ pyUpper c.status
    else if health_endpoints.contains name then
      match w.healthHTTP name with
      | some code =>
        if code == 200 then name ++ ": HEALTHY (HTTP 200)"
        else name ++ ": UNHEALTHY (HTTP " ++ toString code ++ ")"
      | none => name ++ ": UNREACHABLE (" ++ w.errText ++ ")"
    else name ++ ": RUNNING"

/-- The trailing gateway line of `check_all_services_health`. -/
def gatewayLine (w : ProbeWorld) : String :=
  match w.rootHTTP with
  | some code => "api-gateway-http: HTTP_" ++ toString code
  | none => "api-gateway-http: UNREACHABLE"

/-- `check_all_services_health()` (docker_tools.py). -/
def check_all_services_health (w : ProbeWorld) : String :=
  String.intercalate "\n" (MANAGED_CONTAINERS.map (serviceLine w) ++ [gatewayLine w])

/-- `unhealthy_markers` (undo_agent.py, `validation_oracle`). -/
def unhealthy_markers : List String :=
  ["UNHEALTHY", "UNREACHABLE", "NOT_FOUND", "CONTAINER_STOPPED", "CONTAINER_EXITED"]

/-- `r.status_code == 200` guarded by try/except: an exception leaves the
flag `False`. -/
def request200 (resp : Option Nat) : Bool :=
  match resp with
  | some code => code == 200
  | none => false

/-- `validation_oracle(state)` (undo_agent.py lines 10-46) — the function the
graph's `verification_node` actually calls.  It returns the new
`overall_status`: healthy iff no unhealthy marker occurs in the health report
and the gateway probe returns 200. -/
def validation_oracle (w : ProbeWorld) : String :=
  let current_health := check_all_services_health w
  let has_issues := unhealthy_markers.any (fun m => strHas (pyUpper current_health) m)
  let gateway_ok := request200 w.productsHTTP
  if !has_issues && gateway_ok then "healthy" else "degraded"

/-- Oracle 1 of `validation_oracle_v2`: System Health Check. -/
def systemHealthOracle (w : ProbeWorld) : Bool :=
  !(unhealthy_markers.any (fun m => strHas (pyUpper (check_all_services_health w)) m))

/-- Oracle 2 of `validation_oracle_v2`: Gateway HTTP Test. -/
def gatewayOracle (w : ProbeWorld) : Bool := request200 w.productsHTTP

/-- The services probed directly by Oracle 3 of `validation_oracle_v2`. -/
def directServices : List (String × Nat) :=
  [("order-service", 5001), ("product-service", 5002), ("payment-service", 5003)]

/-- Oracle 3 of `validation_oracle_v2`: Service Direct Check. -/
def directOracle (w : ProbeWorld) : Bool :=
  directServices.all (fun sp => request200 (w.directHTTP sp.1))

/-- `validation_oracle_v2(state)` (undo_agent.py lines 48-111): the
three-oracle variant; healthy iff every oracle in the list passed.  It is
defined in the source but never called by the graph. -/
def validation_oracle_v2 (w : ProbeWorld) : String :=
  let oracles := [("System Health", systemHealthOracle w),
                  ("Gateway HTTP", gatewayOracle w),
                  ("Services Direct", directOracle w)]
  if oracles.all (fun o => o.2) then "healthy" else "degraded"

/-! ## Agents -/

/-- The external inputs consumed by one triage pass: the probed world, the
aggregated telemetry strings the metric/trace/log tools return, and the
structured LLM diagnosis. -/
structure TriageEnv where
  health_world : ProbeWorld
  metrics_data : String
  tracing_data : String
  container_logs : String
  diagnosis : SymptomList

/-- `triage_agent(state, llm)` (`src/agents/triage_agent.py`):
`gather_telemetry` stores the telemetry snapshot (including
`pre_fix_health`), then `diagnose_with_llm` stores the structured diagnosis. -/
def triage_agent (env : TriageEnv) (s : SystemState) : SystemState :=
  { s with
    services_health := []
    container_logs := env.container_logs
    metrics_data := env.metrics_data
    tracing_data := env.tracing_data
    pre_fix_health := check_all_services_health env.health_world
    symptoms := env.diagnosis.symptoms
    triage_summary := env.diagnosis.summary
    overall_status := env.diagnosis.overall_status }

/-- The external input of one planner pass: the structured LLM plan; `none`
models the structured-output call yielding no plan. -/
structure PlannerEnv where
  plan : Option MitigationPlan

/-- `planner_agent(state, llm)` (`src/agents/planner_agent.py`). -/
def planner_agent (env : PlannerEnv) (s : SystemState) : SystemState :=
  if s.symptoms.isEmpty then { s with mitigation_plan := none }
  else { s with mitigation_plan := env.plan }

/-- A mutating Target Controller call issued by the engine. -/
inductive CtrlCall where
  | restart (target : String)
  | applyConfig (config : String)
  | rollbackConfig
deriving DecidableEq, Repr

/-- The external inputs of one mitigation pass: the Docker world for
`restart_container`, the outcomes of the config tools, and the raw LLM text
used when the plan carries no `config_content`. -/
structure MitigationEnv where
  docker : DockerWorld
  applyOutcome : ApplyOutcome
  rollbackOutcome : RollbackOutcome
  llmConfigText : String

/-- A state update together with the controller calls it issued. -/
structure AgentOut where
  state : SystemState
  calls : List CtrlCall

/-- The config cleanup in the `update_config` branch:
`get_clean_text(ai_msg).strip()` then stripping the markdown fences. -/
def cleanCfg (s : String) : String :=
  pyStrip (pyReplace (pyReplace (pyStrip s) "```nginx" "") "```" "")

/-- `mitigation_agent(state, llm)` (`src/agents/mitigation_agent.py`).
Dispatches on `plan.action_type`; the `success` flag is the exact substring
heuristic of the source applied to the controller message. -/
def mitigation_agent (env : MitigationEnv) (s : SystemState) : AgentOut :=
  match s.mitigation_plan with
  | none =>
    { state := { s with
        mitigation_result := some ⟨false, "none", "No plan provided", ""⟩
        actions_taken := s.actions_taken ++ ["No mitigation plan to execute"] }
      calls := [] }
  | some plan =>
    let action := plan.action_type
    let target := plan.target_service
    if action == "restart_container" then
      let result_msg := restart_container env.docker target
      let success := strHas (pyLower result_msg) "successfully"
        || strHas (pyLower result_msg) "restarted"
      { state := { s with
          mitigation_result := some ⟨success, action, result_msg, target⟩
          actions_taken := s.actions_taken ++
            ["Restart container: " ++ target ++ " → "
              ++ (if success then "OK" else "FAILED")] }
        calls := [.restart target] }
    else if action == "update_config" then
      let config := match plan.config_content with
        | some c => if c.isEmpty then cleanCfg env.llmConfigText else c
        | none => cleanCfg env.llmConfigText
      let result_msg := apply_nginx_config env.applyOutcome
      let success := strHas (pyLower result_msg) "successfully"
      { state := { s with
          mitigation_result := some ⟨success, action, result_msg, target⟩
          actions_taken := s.actions_taken ++
            ["Update Nginx config → " ++ (if success then "OK" else "FAILED")] }
        calls := [.applyConfig config] }
    else if action == "rollback_config" then
      let result_msg := rollback_nginx_config env.rollbackOutcome
      let success := strHas (pyLower result_msg) "completed"
        || strHas (pyLower result_msg) "rollback"
      { state := { s with
          mitigation_result := some ⟨success, action, result_msg, target⟩
          actions_taken := s.actions_taken ++
            ["Rollback Nginx config → " ++ (if success then "OK" else "FAILED")] }
        calls := [.rollbackConfig] }
    else
      { state := { s with
          mitigation_result := some
            ⟨false, action, "Unknown action type: " ++ action, target⟩
          actions_taken := s.actions_taken ++ ["Unknown action: " ++ action] }
        calls := [] }

/-- The external inputs of one full attempt cycle
(mitigation → verification → undo). -/
structure AttemptEnv where
  mitigation : MitigationEnv
  verify : ProbeWorld
  undoRollback : RollbackOutcome

/-- `undo_agent(state)` (`src/agents/undo_agent.py` lines 112-143):
increments `attempt_count`, calls `rollback_nginx_config` unconditionally,
and records the rollback as the last `MitigationResult`. -/
def undo_agent (env : AttemptEnv) (s : SystemState) : AgentOut :=
  let current_attempt := s.attempt_count + 1
  let rollback_msg := rollback_nginx_config env.undoRollback
  { state := { s with
      attempt_count := current_attempt
      actions_taken := s.actions_taken ++
        ["TNR Rollback (attempt " ++ toString current_attempt ++ ") → " ++ rollback_msg]
      mitigation_result := some ⟨false, "rollback", rollback_msg, "api-gateway"⟩ }
    calls := [.rollbackConfig] }

/-! ## Event bus and workflow events (`src/graph.py`)

`emit_event` prints, then forwards the event to the registered dashboard
callback inside try/except.  For the run model an event keeps its `phase`,
`agent` and `type` fields exactly; the free-text `action` payload is elided,
and `att` is ghost instrumentation recording `attempt_count` at the emitting
node's entry (the node instance the event belongs to). -/

/-- An event as the run model records it. -/
structure Event where
  phase : String
  agent : String
  etype : String
  att : Nat
deriving DecidableEq, Repr

/-- A full event as `emit_event` receives it (timestamp elided). -/
structure RawEvent where
  phase : String
  agent : String
  action : String
  etype : String
deriving DecidableEq, Repr

/-- `emit_event(event)` (graph.py lines 26-43).  The result of the registered
callback is an `Except`: `.error` models the subscriber raising.  The
function's own result is `.ok` with the lines it printed — the subscriber's
exception is caught, logged, and never propagated. -/
def emit_event (cb : Option (RawEvent → Except String Unit)) (e : RawEvent) :
    Except String (List String) :=
  let printed := "   [" ++ e.phase ++ "] " ++ e.agent ++ ": " ++ e.action
  match cb with
  | none => .ok [printed]
  | some f =>
    match f e with
    | .ok _ => .ok [printed]
    | .error err => .ok [printed, "   Callback error: " ++ err]

/-- A node's state update, emitted events, and issued controller calls. -/
structure NodeOut where
  state : SystemState
  events : List Event
  calls : List CtrlCall

/-- The events `triage_node` emits, computed from the triage result `r`
exactly as graph.py lines 48-118 (one event per `emit_event` call; the
telemetry events follow the line-splitting and filtering of the source). -/
def triage_events (r : SystemState) (a : Nat) : List Event :=
  [⟨"triage", "TriageAgent", "action", a⟩]
  ++ (if r.pre_fix_health.isEmpty then [] else
      ((pySplitNl r.pre_fix_health).filter (fun l => !(pyStrip l).isEmpty)).map
        (fun _ => ⟨"triage", "TriageAgent", "telemetry", a⟩))
  ++ (if r.metrics_data.isEmpty then [] else
      (((pySplitNl r.metrics_data).map pyStrip).filter
        (fun l => !l.isEmpty && (strHas l "UP" || strHas l "DOWN" || strHas l "req/s"))).map
        (fun _ => ⟨"triage", "TriageAgent", "telemetry", a⟩))
  ++ (if r.triage_summary.isEmpty then [] else [⟨"triage", "TriageAgent", "reasoning", a⟩])
  ++ (if r.symptoms.isEmpty then [⟨"triage", "TriageAgent", "conclusion", a⟩]
      else r.symptoms.map (fun _ => ⟨"triage", "TriageAgent", "conclusion", a⟩))

/-- `triage_node(state, llm)` (graph.py). -/
def triage_node (env : TriageEnv) (s : SystemState) : NodeOut :=
  let r := triage_agent env s
  { state := r, events := triage_events r s.attempt_count, calls := [] }

/-- `planner_node(state, llm)` (graph.py). -/
def planner_node (env : PlannerEnv) (s : SystemState) : NodeOut :=
  let r := planner_agent env s
  { state := r
    events := ⟨"planner", "PlannerAgent", "action", s.attempt_count⟩ ::
      (match r.mitigation_plan with
       | some _ => [⟨"planner", "PlannerAgent", "reasoning", s.attempt_count⟩,
                    ⟨"planner", "PlannerAgent", "reasoning", s.attempt_count⟩,
                    ⟨"planner", "PlannerAgent", "conclusion", s.attempt_count⟩]
       | none => [])
    calls := [] }

/-- `mitigation_node(state, llm)` (graph.py lines 161-212): A-Lock acquire,
TNR backup intent, the mitigation agent, apply/result events, A-Lock
release. -/
def mitigation_node (env : MitigationEnv) (s : SystemState) : NodeOut :=
  let a := s.attempt_count
  let r := mitigation_agent env s
  let success := (r.state.mitigation_result.map (fun m => m.success)).getD false
  { state := r.state
    events := [⟨"mitigation", "MitigationAgent", "lock_acquired", a⟩,
               ⟨"mitigation", "MitigationAgent", "tnr_backup", a⟩,
               ⟨"mitigation", "MitigationAgent", "tnr_apply", a⟩,
               ⟨"mitigation", "MitigationAgent",
                 (if success then "conclusion" else "tnr_rollback"), a⟩,
               ⟨"mitigation", "MitigationAgent", "lock_released", a⟩]
    calls := r.calls }

/-- `verification_node(state)` (graph.py lines 215-263): calls
`validation_oracle` and reports the three oracle probes and the
commit/rollback verdict. -/
def verification_node (w : ProbeWorld) (s : SystemState) : NodeOut :=
  let a := s.attempt_count
  let r := { s with overall_status := validation_oracle w }
  let is_healthy := r.overall_status == "healthy"
  { state := r
    events := [⟨"verification", "ValidationOracle", "action", a⟩,
               ⟨"verification", "ValidationOracle", "oracle", a⟩,
               ⟨"verification", "ValidationOracle", "oracle", a⟩,
               ⟨"verification", "ValidationOracle", "oracle", a⟩,
               ⟨"verification", "ValidationOracle",
                 (if is_healthy then "tnr_commit" else "tnr_rollback"), a⟩]
    calls := [] }

/-- `undo_node(state)` (graph.py lines 266-296). -/
def undo_node (env : AttemptEnv) (s : SystemState) : NodeOut :=
  let a := s.attempt_count
  let r := undo_agent env s
  let new_attempt := r.state.attempt_count
  { state := r.state
    events := [⟨"undo", "UndoAgent", "tnr_rollback", a⟩,
               ⟨"undo", "UndoAgent",
                 (if new_attempt < s.max_retries then "action" else "circuit_breaker"), a⟩]
    calls := r.calls }

/-! ## Routing functions (graph.py lines 301-323) -/

/-- `should_mitigate`: Triage → Planner only when there are symptoms. -/
def should_mitigate (s : SystemState) : String :=
  if !s.symptoms.isEmpty then "planner" else "end"

/-- `should_retry_or_end`: Verification → Undo while not healthy. -/
def should_retry_or_end (s : SystemState) : String :=
  if s.overall_status == "healthy" then "end" else "undo"

/-- `can_retry`: Undo → Mitigation while `attempt_count < max_retries`. -/
def can_retry (s : SystemState) : String :=
  if s.attempt_count < s.max_retries then "mitigation" else "end"

/-! ## The compiled workflow (graph.py `build_sre_graph`)

The graph wiring is: START → triage; triage → planner (symptoms) or END;
planner → mitigation; mitigation → verification; verification → undo
(unhealthy) or END; undo → mitigation (`can_retry`) or END.  A run is
deterministic given the external inputs, so it is embedded as an executable
function.  The three END routes are labelled with the spec's terminal names:
the two healthy exits are `doneHealthy`, the exhausted-retries exit is
`doneCircuitOpen`. -/

/-- Terminal label of a run: which END route was taken. -/
inductive Terminal where
  | doneHealthy
  | doneCircuitOpen
deriving DecidableEq, Repr

/-- The full outcome of a run: final state, emitted events, the mutating
controller calls, the terminal route, and ghost counters (node passes and the
`attempt_count` value after each executed node). -/
structure RunResult where
  final : SystemState
  trace : List Event
  calls : List CtrlCall
  terminal : Terminal
  nMit : Nat
  nPlan : Nat
  nVerify : Nat
  attHist : List Nat
deriving Repr

/-- All external inputs of one run: triage and planner inputs plus, for each
attempt number, the inputs of that attempt's mitigation/verify/undo cycle. -/
structure RunEnv where
  triage : TriageEnv
  planner : PlannerEnv
  attempts : Nat → AttemptEnv

/-- The mitigation → verification → undo cycle of the graph, iterated while
`can_retry` routes back to mitigation.  `fuel` is a structural-recursion
bound; `runSre` supplies `max_retries - attempt_count + 1`, which is always
sufficient because every cycle increments `attempt_count` (the fuel-0 fallback
is never reached). -/
def loopF (env : RunEnv) : Nat → SystemState → RunResult
  | 0, s =>
    { final := s, trace := [], calls := [], terminal := .doneCircuitOpen
      nMit := 0, nPlan := 0, nVerify := 0, attHist := [] }
  | fuel + 1, s =>
    let m := mitigation_node (env.attempts s.attempt_count).mitigation s
    let v := verification_node (env.attempts s.attempt_count).verify m.state
    if should_retry_or_end v.state == "end" then
      { final := v.state, trace := m.events ++ v.events, calls := m.calls
        terminal := .doneHealthy, nMit := 1, nPlan := 0, nVerify := 1
        attHist := [m.state.attempt_count, v.state.attempt_count] }
    else
      let u := undo_node (env.attempts s.attempt_count) v.state
      if can_retry u.state == "mitigation" then
        let r := loopF env fuel u.state
        { final := r.final
          trace := m.events ++ v.events ++ u.events ++ r.trace
          calls := m.calls ++ u.calls ++ r.calls
          terminal := r.terminal
          nMit := r.nMit + 1, nPlan := r.nPlan, nVerify := r.nVerify + 1
          attHist := m.state.attempt_count :: v.state.attempt_count ::
            u.state.attempt_count :: r.attHist }
      else
        { final := u.state, trace := m.events ++ v.events ++ u.events
          calls := m.calls ++ u.calls, terminal := .doneCircuitOpen
          nMit := 1, nPlan := 0, nVerify := 1
          attHist := [m.state.attempt_count, v.state.attempt_count,
            u.state.attempt_count] }

/-- One full workflow run from `s0` (graph.py `build_sre_graph` wiring). -/
def runSre (env : RunEnv) (s0 : SystemState) : RunResult :=
  let t := triage_node env.triage s0
  if should_mitigate t.state == "planner" then
    let p := planner_node env.planner t.state
    let r := loopF env (p.state.max_retries - p.state.attempt_count + 1) p.state
    { final := r.final
      trace := t.events ++ p.events ++ r.trace
      calls := r.calls
      terminal := r.terminal
      nMit := r.nMit, nPlan := 1, nVerify := r.nVerify
      attHist := s0.attempt_count :: t.state.attempt_count ::
        p.state.attempt_count :: r.attHist }
  else
    { final := t.state, trace := t.events, calls := [], terminal := .doneHealthy
      nMit := 0, nPlan := 0, nVerify := 0
      attHist := [s0.attempt_count, t.state.attempt_count] }

/-! ## Lock-pair checker (for the event-ordering property)

`lockScanM none tr` scans a trace: outside a pair it skips non-lock events
and enters a pair at `lock_acquired`; inside the pair opened by the
mitigation pass with attempt tag `k`, every event must belong to that same
pass until the matching `lock_released`.  The result counts the pairs,
`none` meaning the trace is malformed (unmatched, nested, or interleaved
locks, or a foreign event inside a pair). -/

def lockScanM : Option Nat → List Event → Option Nat
  | none, [] => some 0
  | some _, [] => none
  | none, e :: rest =>
    if e.etype == "lock_released" then none
    else if e.etype == "lock_acquired" then lockScanM (some e.att) rest
    else lockScanM none rest
  | some k, e :: rest =>
    if e.etype == "lock_released" then
      if e.att == k && e.phase == "mitigation" then
        (lockScanM none rest).map (fun n => n + 1)
      else none
    else if e.etype == "lock_acquired" then none
    else if e.att == k && e.phase == "mitigation" then lockScanM (some k) rest
    else none

/-- Top-level lock-pair check of a trace. -/
def lockScan (tr : List Event) : Option Nat := lockScanM none tr

/-! ## Concrete scenario inputs used by counterexamples and witnesses -/

/-- A world where every managed container runs and every probe returns 200. -/
def healthyWorld : ProbeWorld :=
  { containers := MANAGED_CONTAINERS.map (fun n => ⟨n, "running"⟩)
    healthHTTP := fun _ => some 200
    rootHTTP := some 200
    productsHTTP := some 200
    directHTTP := fun _ => some 200
    errText := "timeout" }

/-- A world where order-service has exited and the gateway read fails. -/
def downWorld : ProbeWorld :=
  { containers := [⟨"order-service", "exited"⟩, ⟨"product-service", "running"⟩,
                   ⟨"payment-service", "running"⟩, ⟨"api-gateway", "running"⟩]
    healthHTTP := fun n => if n == "order-service" then none else some 200
    rootHTTP := some 200
    productsHTTP := none
    directHTTP := fun n => if n == "order-service" then none else some 200
    errText := "connection refused" }

/-- A sample symptom. -/
def symptomA : Symptom :=
  ⟨"order-service", "service_down", "critical", "container exited", []⟩

/-- A restart plan for order-service. -/
def planRestart : MitigationPlan :=
  ⟨"order-service container exited", "order-service", "restart_container",
   none, "restart the container", "brief downtime"⟩

/-- Triage inputs with a fixed diagnosis. -/
def triageEnvWith (sym : List Symptom) (status : String) : TriageEnv :=
  { health_world := healthyWorld, metrics_data := "", tracing_data := ""
    container_logs := "", diagnosis := ⟨sym, status, "system report"⟩ }

/-- An attempt cycle where the restart succeeds and validation passes. -/
def attemptOkRestart : AttemptEnv :=
  { mitigation :=
      { docker := { containers := [⟨"order-service", "running"⟩]
                    restartFail := none, statusAfter := "running" }
        applyOutcome := .applied, rollbackOutcome := .restored, llmConfigText := "" }
    verify := healthyWorld
    undoRollback := .restored }

/-- An attempt cycle where validation fails and the undo finds no backup. -/
def attemptFailing : AttemptEnv :=
  { mitigation :=
      { docker := { containers := [], restartFail := none, statusAfter := "running" }
        applyOutcome := .testFail "syntax error", rollbackOutcome := .noBackup
        llmConfigText := "" }
    verify := downWorld
    undoRollback := .noBackup }

/-- Scenario-B run inputs: one symptom, restart plan, everything succeeds. -/
def envB : RunEnv :=
  { triage := triageEnvWith [symptomA] "critical"
    planner := ⟨some planRestart⟩
    attempts := fun _ => attemptOkRestart }

/-- Run inputs where the Planning Oracle yields no plan and validation
keeps failing. -/
def envNoPlan : RunEnv :=
  { triage := triageEnvWith [symptomA] "critical"
    planner := ⟨none⟩
    attempts := fun _ => attemptFailing }

/-- Run inputs with an empty diagnosis (no symptoms). -/
def envNoSymptoms : RunEnv :=
  { triage := triageEnvWith [] "healthy"
    planner := ⟨some planRestart⟩
    attempts := fun _ => attemptOkRestart }


/-! ## Structural lemmas about the nodes and the loop -/

theorem mitigation_agent_att (env : MitigationEnv) (s : SystemState) :
    (mitigation_agent env s).state.attempt_count = s.attempt_count := by
  unfold mitigation_agent
  rcases s.mitigation_plan with _ | p
  · rfl
  · simp only []
    split_ifs <;> rfl

theorem mitigation_agent_max (env : MitigationEnv) (s : SystemState) :
    (mitigation_agent env s).state.max_retries = s.max_retries := by
  unfold mitigation_agent
  rcases s.mitigation_plan with _ | p
  · rfl
  · simp only []
    split_ifs <;> rfl

theorem mitigation_node_att (env : MitigationEnv) (s : SystemState) :
    (mitigation_node env s).state.attempt_count = s.attempt_count :=
  mitigation_agent_att env s

theorem mitigation_node_max (env : MitigationEnv) (s : SystemState) :
    (mitigation_node env s).state.max_retries = s.max_retries :=
  mitigation_agent_max env s

theorem verification_node_att (w : ProbeWorld) (s : SystemState) :
    (verification_node w s).state.attempt_count = s.attempt_count := rfl

theorem verification_node_max (w : ProbeWorld) (s : SystemState) :
    (verification_node w s).state.max_retries = s.max_retries := rfl

theorem undo_node_att (env : AttemptEnv) (s : SystemState) :
    (undo_node env s).state.attempt_count = s.attempt_count + 1 := rfl

theorem undo_node_max (env : AttemptEnv) (s : SystemState) :
    (undo_node env s).state.max_retries = s.max_retries := rfl

theorem triage_agent_att (env : TriageEnv) (s : SystemState) :
    (triage_agent env s).attempt_count = s.attempt_count := rfl

theorem triage_agent_max (env : TriageEnv) (s : SystemState) :
    (triage_agent env s).max_retries = s.max_retries := rfl

theorem planner_agent_att (env : PlannerEnv) (s : SystemState) :
    (planner_agent env s).attempt_count = s.attempt_count := by
  unfold planner_agent; split_ifs <;> rfl

theorem planner_agent_max (env : PlannerEnv) (s : SystemState) :
    (planner_agent env s).max_retries = s.max_retries := by
  unfold planner_agent; split_ifs <;> rfl

theorem should_retry_end_iff (s : SystemState) :
    (should_retry_or_end s == "end") = true ↔ s.overall_status = "healthy" := by
  unfold should_retry_or_end
  split_ifs with h
  · simpa using h
  · simpa using h

theorem can_retry_mitigation_iff (s : SystemState) :
    (can_retry s == "mitigation") = true ↔ s.attempt_count < s.max_retries := by
  unfold can_retry
  split_ifs with h
  · simpa using h
  · simpa using h

/-- Is the event one of the two lock events? -/
def isLockE (e : Event) : Bool :=
  e.etype == "lock_acquired" || e.etype == "lock_released"

/-- Trace segments without lock events do not affect the scan (outside a
pair). -/
theorem lockScanM_skip (A B : List Event) (h : A.all (fun e => !isLockE e) = true) :
    lockScanM none (A ++ B) = lockScanM none B := by
  induction A with
  | nil => rfl
  | cons e A ih =>
    rw [List.all_cons, Bool.and_eq_true] at h
    have he := h.1
    simp only [isLockE, Bool.not_eq_eq_eq_not, Bool.not_true, Bool.or_eq_false_iff] at he
    simp only [List.cons_append, lockScanM, he.1, he.2, Bool.false_eq_true, if_false]
    exact ih h.2

theorem triage_events_lockfree (r : SystemState) (a : Nat) :
    (triage_events r a).all (fun e => !isLockE e) = true := by
  unfold triage_events
  split_ifs <;> simp [List.all_map, isLockE]

theorem planner_events_lockfree (env : PlannerEnv) (s : SystemState) :
    ((planner_node env s).events).all (fun e => !isLockE e) = true := by
  unfold planner_node
  rcases hp : (planner_agent env s).mitigation_plan with _ | p <;> simp [hp, isLockE]

theorem verification_events_lockfree (w : ProbeWorld) (s : SystemState) :
    ((verification_node w s).events).all (fun e => !isLockE e) = true := by
  unfold verification_node
  by_cases h : (validation_oracle w == "healthy") = true <;> simp [h, isLockE]

theorem undo_events_lockfree (env : AttemptEnv) (s : SystemState) :
    ((undo_node env s).events).all (fun e => !isLockE e) = true := by
  unfold undo_node
  by_cases h : (undo_agent env s).state.attempt_count < s.max_retries <;>
    simp [h, isLockE]

/-- A mitigation-node segment contributes exactly one well-formed lock pair
enclosing only that pass's events. -/
theorem lockScanM_mit (env : MitigationEnv) (s : SystemState) (B : List Event) :
    lockScanM none ((mitigation_node env s).events ++ B)
      = (lockScanM none B).map (fun n => n + 1) := by
  unfold mitigation_node
  by_cases hs : ((mitigation_agent env s).state.mitigation_result.map
      (fun m => m.success)).getD false = true <;>
    simp [hs, lockScanM]

/-- A lock-free trace scans to zero pairs. -/
theorem lockScanM_free (A : List Event) (h : A.all (fun e => !isLockE e) = true) :
    lockScanM none A = some 0 := by
  have h2 := lockScanM_skip A [] h
  simpa using h2

theorem loopF_verify_eq_mit (env : RunEnv) (fuel : Nat) (s : SystemState) :
    (loopF env fuel s).nVerify = (loopF env fuel s).nMit := by
  induction fuel generalizing s with
  | zero => rfl
  | succ fuel ih =>
    simp only [loopF]
    split_ifs <;> simp [ih]

theorem loopF_healthy (env : RunEnv) (fuel : Nat) (s : SystemState)
    (h : (loopF env fuel s).terminal = Terminal.doneHealthy) :
    (loopF env fuel s).final.overall_status = "healthy" := by
  induction fuel generalizing s with
  | zero => exact absurd h (by simp [loopF])
  | succ fuel ih =>
    simp only [loopF] at h ⊢
    split_ifs at h ⊢ with h1 h2
    · exact (should_retry_end_iff _).1 h1
    · exact ih _ h

theorem loopF_bound (env : RunEnv) (fuel : Nat) (s : SystemState)
    (hf : s.max_retries - s.attempt_count < fuel)
    (ha : s.attempt_count < s.max_retries) :
    (loopF env fuel s).final.attempt_count ≤ s.max_retries ∧
    (loopF env fuel s).final.max_retries = s.max_retries ∧
    ∀ x ∈ (loopF env fuel s).attHist, x ≤ s.max_retries := by
  induction fuel generalizing s with
  | zero => omega
  | succ fuel ih =>
    simp only [loopF]
    split_ifs with h1 h2
    · dsimp only
      refine ⟨?_, ?_, ?_⟩
      · simp only [verification_node_att, mitigation_node_att]; omega
      · simp only [verification_node_max, mitigation_node_max]
      · intro x hx
        simp only [verification_node_att, mitigation_node_att, List.mem_cons,
          List.not_mem_nil, or_false] at hx
        rcases hx with rfl | rfl <;> omega
    · dsimp only
      set U := (undo_node (env.attempts s.attempt_count)
          (verification_node (env.attempts s.attempt_count).verify
            (mitigation_node (env.attempts s.attempt_count).mitigation s).state).state).state with hU
      have hua : U.attempt_count = s.attempt_count + 1 := by
        rw [hU, undo_node_att, verification_node_att, mitigation_node_att]
      have hum : U.max_retries = s.max_retries := by
        rw [hU, undo_node_max, verification_node_max, mitigation_node_max]
      have h2' := (can_retry_mitigation_iff _).1 h2
      have ihu := ih U (by omega) (by omega)
      rw [hum] at ihu
      refine ⟨ihu.1, ihu.2.1, ?_⟩
      intro x hx
      simp only [verification_node_att, mitigation_node_att, List.mem_cons] at hx
      rcases hx with rfl | rfl | rfl | hx
      · omega
      · omega
      · omega
      · exact ihu.2.2 x hx
    · dsimp only
      refine ⟨?_, ?_, ?_⟩
      · simp only [undo_node_att, verification_node_att, mitigation_node_att]; omega
      · simp only [undo_node_max, verification_node_max, mitigation_node_max]
      · intro x hx
        simp only [undo_node_att, verification_node_att, mitigation_node_att,
          List.mem_cons, List.not_mem_nil, or_false] at hx
        rcases hx with rfl | rfl | rfl <;> omega

theorem loopF_hist (env : RunEnv) (fuel : Nat) (s : SystemState)
    (hf : s.max_retries - s.attempt_count < fuel) :
    List.Chain' (fun a b => a ≤ b) (loopF env fuel s).attHist ∧
    (loopF env fuel s).attHist.head? = some s.attempt_count := by
  induction fuel generalizing s with
  | zero => exact absurd hf (Nat.not_lt_zero _)
  | succ fuel ih =>
    simp only [loopF]
    split_ifs with h1 h2
    · dsimp only
      simp [verification_node_att, mitigation_node_att, List.chain'_cons]
    · dsimp only
      set U := (undo_node (env.attempts s.attempt_count)
          (verification_node (env.attempts s.attempt_count).verify
            (mitigation_node (env.attempts s.attempt_count).mitigation s).state).state).state with hU
      have hua : U.attempt_count = s.attempt_count + 1 := by
        rw [hU, undo_node_att, verification_node_att, mitigation_node_att]
      have hum : U.max_retries = s.max_retries := by
        rw [hU, undo_node_max, verification_node_max, mitigation_node_max]
      have h2' := (can_retry_mitigation_iff _).1 h2
      have ihu := ih U (by omega)
      simp only [verification_node_att, mitigation_node_att, hua]
      refine ⟨?_, by simp⟩
      rw [List.chain'_cons']
      refine ⟨by simp, ?_⟩
      rw [List.chain'_cons']
      refine ⟨by simp, ?_⟩
      rw [List.chain'_cons']
      refine ⟨?_, ihu.1⟩
      intro y hy
      rw [ihu.2] at hy
      simp only [Option.mem_def, Option.some.injEq] at hy
      omega
    · dsimp only
      simp [undo_node_att, verification_node_att, mitigation_node_att, List.chain'_cons]

theorem loopF_lock (env : RunEnv) (fuel : Nat) (s : SystemState) :
    lockScanM none (loopF env fuel s).trace = some (loopF env fuel s).nMit := by
  induction fuel generalizing s with
  | zero => rfl
  | succ fuel ih =>
    simp only [loopF]
    split_ifs with h1 h2
    · dsimp only
      rw [lockScanM_mit, lockScanM_free _ (verification_events_lockfree _ _)]
      rfl
    · dsimp only
      rw [List.append_assoc, List.append_assoc, lockScanM_mit,
        lockScanM_skip _ _ (verification_events_lockfree _ _),
        lockScanM_skip _ _ (undo_events_lockfree _ _), ih]
      rfl
    · dsimp only
      rw [List.append_assoc, lockScanM_mit,
        lockScanM_skip _ _ (verification_events_lockfree _ _),
        lockScanM_free _ (undo_events_lockfree _ _)]
      rfl

theorem terminal_dichotomy (t : Terminal) :
    t = Terminal.doneHealthy ∨ t = Terminal.doneCircuitOpen := by
  cases t
  · exact Or.inl rfl
  · exact Or.inr rfl

theorem triage_node_att (env : TriageEnv) (s : SystemState) :
    (triage_node env s).state.attempt_count = s.attempt_count := rfl

theorem triage_node_max (env : TriageEnv) (s : SystemState) :
    (triage_node env s).state.max_retries = s.max_retries := rfl

theorem planner_node_att (env : PlannerEnv) (s : SystemState) :
    (planner_node env s).state.attempt_count = s.attempt_count :=
  planner_agent_att env s

theorem planner_node_max (env : PlannerEnv) (s : SystemState) :
    (planner_node env s).state.max_retries = s.max_retries :=
  planner_agent_max env s

theorem triage_node_events_lockfree (env : TriageEnv) (s : SystemState) :
    ((triage_node env s).events).all (fun e => !isLockE e) = true :=
  triage_events_lockfree (triage_agent env s) s.attempt_count

/-- A run that ends on the healthy terminal either never mitigated (the
no-symptom exit) or ended with a healthy validation verdict. -/
theorem runSre_healthy_status (env : RunEnv) (s0 : SystemState)
    (h : (runSre env s0).terminal = Terminal.doneHealthy) :
    (runSre env s0).nMit = 0 ∨ (runSre env s0).final.overall_status = "healthy" := by
  simp only [runSre] at h ⊢
  split_ifs at h ⊢ with h1
  · dsimp only at h ⊢
    exact Or.inr (loopF_healthy _ _ _ h)
  · exact Or.inl rfl

/-- C7: for every run whose Diagnostic Oracle reports an empty symptom list,
the run goes from TRIAGE straight to the healthy terminal (the
`should_mitigate` END route), with zero planner passes, zero mitigation
passes, and no mutating Target Controller call. -/
theorem c7_no_symptom_short_circuit (env : RunEnv) (s0 : SystemState)
    (h : env.triage.diagnosis.symptoms = []) :
    (runSre env s0).terminal = Terminal.doneHealthy ∧
    (runSre env s0).nPlan = 0 ∧ (runSre env s0).nMit = 0 ∧
    (runSre env s0).calls = [] := by
  have hsm : should_mitigate (triage_node env.triage s0).state = "end" := by
    unfold should_mitigate triage_node triage_agent
    simp [h]
  simp [runSre, hsm]

theorem c7_no_symptom_short_circuit_witness :
    envNoSymptoms.triage.diagnosis.symptoms = [] ∧
    ((runSre envNoSymptoms (initState 3)).terminal = Terminal.doneHealthy ∧
     (runSre envNoSymptoms (initState 3)).nPlan = 0 ∧
     (runSre envNoSymptoms (initState 3)).nMit = 0 ∧
     (runSre envNoSymptoms (initState 3)).calls = []) :=
  ⟨rfl, c7_no_symptom_short_circuit envNoSymptoms (initState 3) rfl⟩

/-- C8: in every run, the emitted event sequence contains exactly one
`lock_acquired`/`lock_released` pair per mitigation pass, each acquire
preceding its matching release, with every event between a pair belonging to
that same mitigation pass (`lockScan` checks all of this and counts the
pairs, which equal the number of mitigation passes). -/
theorem c8_lock_pairs_per_attempt (env : RunEnv) (s0 : SystemState) :
    lockScan (runSre env s0).trace = some (runSre env s0).nMit := by
  unfold lockScan
  simp only [runSre]
  split_ifs with h1
  · dsimp only
    rw [List.append_assoc, lockScanM_skip _ _ (triage_node_events_lockfree _ _),
      lockScanM_skip _ _ (planner_events_lockfree _ _)]
    exact loopF_lock _ _ _
  · dsimp only
    rw [lockScanM_free _ (triage_node_events_lockfree _ _)]

/-- C2: with a positive `max_retries` (the spec's configuration contract),
`attempt_count` never exceeds `max_retries` — neither at any point of the run
(`attHist` records it after every executed node) nor in the terminal state —
and whenever the terminal `attempt_count` equals `max_retries` with a
non-healthy status, the run ended on the circuit-breaker terminal. -/
theorem c2_retry_bound (env : RunEnv) (mr : Nat) (h : 1 ≤ mr) :
    (∀ x ∈ (runSre env (initState mr)).attHist, x ≤ mr) ∧
    (runSre env (initState mr)).final.attempt_count ≤ mr ∧
    ((runSre env (initState mr)).final.attempt_count = mr →
      (runSre env (initState mr)).final.overall_status ≠ "healthy" →
      (runSre env (initState mr)).terminal = Terminal.doneCircuitOpen) := by
  simp only [runSre]
  split_ifs with h1
  · dsimp only
    set P := (planner_node env.planner
        (triage_node env.triage (initState mr)).state).state with hP
    have hpa : P.attempt_count = 0 := by
      rw [hP, planner_node_att, triage_node_att]; rfl
    have hpm : P.max_retries = mr := by
      rw [hP, planner_node_max, triage_node_max]; rfl
    clear_value P
    have hb := loopF_bound env (P.max_retries - P.attempt_count + 1) P
      (by omega) (by omega)
    refine ⟨?_, le_trans hb.1 hpm.le, ?_⟩
    · intro x hx
      simp only [List.mem_cons] at hx
      rcases hx with rfl | rfl | rfl | hx
      · exact Nat.zero_le mr
      · exact Nat.zero_le mr
      · rw [hpa]; exact Nat.zero_le mr
      · exact le_trans (hb.2.2 x hx) hpm.le
    · intro hm hs
      rcases terminal_dichotomy
          ((loopF env (P.max_retries - P.attempt_count + 1) P).terminal) with ht | ht
      · exact absurd (loopF_healthy _ _ _ ht) hs
      · exact ht
  · dsimp only
    have h0 : (triage_node env.triage (initState mr)).state.attempt_count = 0 := rfl
    refine ⟨?_, ?_, ?_⟩
    · intro x hx
      simp only [List.mem_cons, List.not_mem_nil, or_false] at hx
      rcases hx with rfl | rfl
      · exact Nat.zero_le mr
      · rw [h0]; exact Nat.zero_le mr
    · rw [h0]; exact Nat.zero_le mr
    · intro hm hs
      rw [h0] at hm
      exact absurd hm (by omega)

theorem c2_retry_bound_witness :
    1 ≤ 3 ∧
    ((∀ x ∈ (runSre envB (initState 3)).attHist, x ≤ 3) ∧
     (runSre envB (initState 3)).final.attempt_count ≤ 3 ∧
     ((runSre envB (initState 3)).final.attempt_count = 3 →
       (runSre envB (initState 3)).final.overall_status ≠ "healthy" →
       (runSre envB (initState 3)).terminal = Terminal.doneCircuitOpen)) :=
  ⟨by decide, c2_retry_bound envB 3 (by decide)⟩

/-- C9: `emit_event` (the publish of the Event Bus) returns normally for
every subscriber outcome: an exception raised by the registered callback is
caught and logged (appended to the printed output), and never propagates, so
the workflow proceeds. -/
theorem c9_subscriber_failure_caught :
    (∀ cb e, (emit_event cb e).isOk = true) ∧
    (∀ e msg, emit_event (some (fun _ => Except.error msg)) e =
      Except.ok ["   [" ++ e.phase ++ "] " ++ e.agent ++ ": " ++ e.action,
                 "   Callback error: " ++ msg]) := by
  constructor
  · intro cb e
    rcases cb with _ | f
    · rfl
    · cases hfe : f e <;> simp [emit_event, hfe, Except.isOk, Except.toBool]
  · intro e msg
    rfl

/-- A world where the health report and the gateway read are clean but the
direct probe of order-service times out (a separate request at a later
instant). -/
def mixedWorld : ProbeWorld :=
  { containers := MANAGED_CONTAINERS.map (fun n => ⟨n, "running"⟩)
    healthHTTP := fun _ => some 200
    rootHTTP := some 200
    productsHTTP := some 200
    directHTTP := fun n => if n == "order-service" then none else some 200
    errText := "timeout" }

/-- C1: the verdict the graph actually computes (`validation_oracle`) is NOT
the conjunction of the three named checks: at `mixedWorld` the System Health
Check and the Gateway Probe pass while the Direct Target Probes fail, yet the
verdict is healthy.  The sibling `validation_oracle_v2` — which the graph
never calls although its `verification_node` announces three oracles —
returns degraded there, i.e. implements the claimed conjunction. -/
theorem c1_verdict_not_conjunction_of_three_checks :
    systemHealthOracle mixedWorld = true ∧
    gatewayOracle mixedWorld = true ∧
    directOracle mixedWorld = false ∧
    validation_oracle mixedWorld = "healthy" ∧
    validation_oracle_v2 mixedWorld = "degraded" := by decide

/-- C3 counterexample: in the Scenario-B run (one symptom, restart succeeds,
validation passes) there is exactly one mitigation pass, the run ends
healthy, and the terminal `attempt_count` is 0, not 1 — MITIGATE does not
increment the counter. -/
theorem c3_single_success_attempt_count_zero :
    (runSre envB (initState 3)).nMit = 1 ∧
    (runSre envB (initState 3)).final.mitigation_result.map (fun m => m.success)
      = some true ∧
    (runSre envB (initState 3)).terminal = Terminal.doneHealthy ∧
    (runSre envB (initState 3)).final.attempt_count = 0 ∧
    ¬ (runSre envB (initState 3)).final.attempt_count = 1 := by decide

/-- C3 (amended): a MITIGATE pass leaves `attempt_count` unchanged; it is the
UNDO pass that increments it by exactly 1 (counting failed attempts); the
counter is never decremented over a run (its recorded history is monotone
non-decreasing). -/
theorem c3_attempt_counting_amended :
    (∀ env s, (mitigation_node env s).state.attempt_count = s.attempt_count) ∧
    (∀ env s, (undo_node env s).state.attempt_count = s.attempt_count + 1) ∧
    (∀ env s0, List.Chain' (fun a b => a ≤ b) (runSre env s0).attHist) := by
  refine ⟨mitigation_node_att, undo_node_att, ?_⟩
  intro env s0
  simp only [runSre]
  split_ifs with h1
  · dsimp only
    set P := (planner_node env.planner (triage_node env.triage s0).state).state with hP
    have hpa : P.attempt_count = s0.attempt_count := by
      rw [hP, planner_node_att, triage_node_att]
    clear_value P
    have hh := loopF_hist env (P.max_retries - P.attempt_count + 1) P (by omega)
    rw [List.chain'_cons']
    refine ⟨?_, ?_⟩
    · intro y hy
      simp only [List.head?_cons, Option.mem_def, Option.some.injEq] at hy
      rw [← hy, triage_node_att]
    · rw [List.chain'_cons']
      refine ⟨?_, ?_⟩
      · intro y hy
        simp only [List.head?_cons, Option.mem_def, Option.some.injEq] at hy
        rw [← hy, triage_node_att, hpa]
      · rw [List.chain'_cons']
        refine ⟨?_, hh.1⟩
        intro y hy
        rw [hh.2] at hy
        simp only [Option.mem_def, Option.some.injEq] at hy
        omega
  · dsimp only
    simp [triage_node_att, List.chain'_cons]

/-- C4 counterexample: with one symptom and a `None` plan (`envNoPlan`,
`max_retries = 1`, validation failing), the run does not terminate healthy:
it passes through MITIGATE once, reaches the circuit-open terminal, and the
Target Controller is called (the undo rollback). -/
theorem c4_none_plan_run_not_healthy :
    envNoPlan.planner.plan = none ∧
    (runSre envNoPlan (initState 1)).nMit = 1 ∧
    (runSre envNoPlan (initState 1)).terminal = Terminal.doneCircuitOpen ∧
    ¬ (runSre envNoPlan (initState 1)).terminal = Terminal.doneHealthy ∧
    (runSre envNoPlan (initState 1)).calls = [CtrlCall.rollbackConfig] := by decide

/-- C4 (amended): a `None` plan does not end the run; the MITIGATE step
records a failed `MitigationResult` (success `false`, action `"none"`,
message `"No plan provided"`) without any controller call, every mitigation
pass is followed by a verification pass, and a run ends on the healthy
terminal only if it never mitigated or its last validation verdict was
healthy. -/
theorem c4_none_plan_amended (env : MitigationEnv) (s : SystemState)
    (hp : s.mitigation_plan = none) :
    (mitigation_node env s).calls = [] ∧
    (mitigation_node env s).state.mitigation_result =
      some ⟨false, "none", "No plan provided", ""⟩ ∧
    (∀ env2 fuel s2, (loopF env2 fuel s2).nVerify = (loopF env2 fuel s2).nMit) ∧
    (∀ env3 s3, (runSre env3 s3).terminal = Terminal.doneHealthy →
      (runSre env3 s3).nMit = 0 ∨ (runSre env3 s3).final.overall_status = "healthy") := by
  refine ⟨?_, ?_, loopF_verify_eq_mit, runSre_healthy_status⟩ <;>
    simp [mitigation_node, mitigation_agent, hp]

theorem c4_none_plan_amended_witness :
    (initState 3).mitigation_plan = none ∧
    ((mitigation_node attemptFailing.mitigation (initState 3)).calls = [] ∧
     (mitigation_node attemptFailing.mitigation (initState 3)).state.mitigation_result =
       some ⟨false, "none", "No plan provided", ""⟩ ∧
     (∀ env2 fuel s2, (loopF env2 fuel s2).nVerify = (loopF env2 fuel s2).nMit) ∧
     (∀ env3 s3, (runSre env3 s3).terminal = Terminal.doneHealthy →
       (runSre env3 s3).nMit = 0 ∨ (runSre env3 s3).final.overall_status = "healthy")) :=
  ⟨rfl, c4_none_plan_amended attemptFailing.mitigation (initState 3) rfl⟩

/-- A rollback plan as the Planning Oracle would emit it. -/
def rollbackPlan : MitigationPlan :=
  ⟨"bad config deployed", "api-gateway", "rollback_config", none,
   "restore the previous config", "low"⟩

/-- A state about to execute the rollback plan. -/
def rbState : SystemState :=
  { initState 3 with symptoms := [symptomA], mitigation_plan := some rollbackPlan }

/-- A mitigation environment where the controller finds no backup. -/
def noBackupEnv : MitigationEnv :=
  { docker := ⟨[], none, "running"⟩, applyOutcome := .applied
    rollbackOutcome := .noBackup, llmConfigText := "" }

/-- C5: when `rollback_config` finds no backup the controller returns the
failure message `"No backup found to rollback"`, but the engine's success
heuristic (`"completed" in msg or "rollback" in msg`) matches the word
`rollback` inside that very failure message, so the recorded
`MitigationResult` has `success = true` — the code records this controller
failure as a success, contradicting the claim. -/
theorem c5_no_backup_rollback_marked_success :
    rollback_nginx_config RollbackOutcome.noBackup = "No backup found to rollback" ∧
    (mitigation_agent noBackupEnv rbState).state.mitigation_result =
      some ⟨true, "rollback_config", "No backup found to rollback", "api-gateway"⟩ ∧
    strHas (pyLower "No backup found to rollback") "rollback" = true := by decide

/-- A plan whose target is not a managed container. -/
def dbPlan : MitigationPlan :=
  ⟨"stale connections", "db-service", "restart_container", none,
   "restart it", "brief downtime"⟩

/-- A state about to execute the unknown-target restart plan. -/
def dbState : SystemState :=
  { initState 3 with symptoms := [symptomA], mitigation_plan := some dbPlan }

/-- A daemon that does know a container named db-service. -/
def dbEnv : MitigationEnv :=
  { docker := ⟨[⟨"db-service", "running"⟩], none, "running"⟩
    applyOutcome := .applied, rollbackOutcome := .restored, llmConfigText := "" }

/-- A daemon with no containers at all. -/
def noContainersEnv : MitigationEnv :=
  { docker := ⟨[], none, "running"⟩, applyOutcome := .applied
    rollbackOutcome := .restored, llmConfigText := "" }

/-- C6 counterexample: `db-service` is not in `MANAGED_CONTAINERS`, yet the
engine dispatches the restart to the controller anyway, and — the daemon
happening to know that container — the attempt is recorded as a success: the
engine performs no managed-target validation and does not fail the attempt. -/
theorem c6_unknown_target_dispatched_and_succeeds :
    MANAGED_CONTAINERS.contains "db-service" = false ∧
    (mitigation_node dbEnv dbState).calls = [CtrlCall.restart "db-service"] ∧
    (mitigation_node dbEnv dbState).state.mitigation_result.map
      (fun m => m.success) = some true := by decide

/-- A not-found target whose name itself contains the word restarted, so the
success heuristic misfires on its error message. -/
def restartedDbPlan : MitigationPlan :=
  ⟨"stale connections", "restarted-db", "restart_container", none,
   "restart it", "brief downtime"⟩

/-- A state about to execute the restart of the pathological target. -/
def restartedDbState : SystemState :=
  { initState 3 with symptoms := [symptomA], mitigation_plan := some restartedDbPlan }

/-- C6 (amended): the engine performs no target validation: every
`restart_container` plan is dispatched to the Target Controller regardless of
`MANAGED_CONTAINERS`.  When the controller itself does not know the target it
returns the descriptive `not found` error; that single attempt records this
message in the `MitigationResult`, appends a FAILED entry to the actions log,
and the run continues.  The recorded success flag is the substring heuristic
(`successfully`/`restarted` in the lowered controller message): the attempt is
recorded as failed whenever neither word occurs in the not-found message, but
for a pathological target name containing one of them — `restarted-db` — the
heuristic misfires and the failed restart is recorded as a success. -/
theorem c6_unknown_target_amended (env : MitigationEnv) (s : SystemState)
    (plan : MitigationPlan) (hp : s.mitigation_plan = some plan)
    (ha : plan.action_type = "restart_container")
    (hmiss : getContainer env.docker.containers plan.target_service = none)
    (h1 : strHas (pyLower (restart_container env.docker plan.target_service))
      "successfully" = false)
    (h2 : strHas (pyLower (restart_container env.docker plan.target_service))
      "restarted" = false) :
    (∀ (env2 : MitigationEnv) (s2 : SystemState) (p2 : MitigationPlan),
      s2.mitigation_plan = some p2 → p2.action_type = "restart_container" →
      (mitigation_node env2 s2).calls = [CtrlCall.restart p2.target_service]) ∧
    (∀ (env2 : MitigationEnv) (s2 : SystemState) (p2 : MitigationPlan),
      s2.mitigation_plan = some p2 → p2.action_type = "restart_container" →
      (mitigation_node env2 s2).state.mitigation_result.map (fun m => m.success) =
        some (strHas (pyLower (restart_container env2.docker p2.target_service))
            "successfully"
          || strHas (pyLower (restart_container env2.docker p2.target_service))
            "restarted")) ∧
    restart_container env.docker plan.target_service =
      "Error: Container '" ++ plan.target_service ++ "' not found" ∧
    (mitigation_node env s).state.mitigation_result =
      some ⟨false, "restart_container",
        "Error: Container '" ++ plan.target_service ++ "' not found",
        plan.target_service⟩ ∧
    (mitigation_node env s).state.actions_taken =
      s.actions_taken ++ ["Restart container: " ++ plan.target_service ++ " → FAILED"] ∧
    getContainer noContainersEnv.docker.containers "restarted-db" = none ∧
    (mitigation_node noContainersEnv restartedDbState).state.mitigation_result =
      some ⟨true, "restart_container", "Error: Container 'restarted-db' not found",
        "restarted-db"⟩ := by
  have hmsg : restart_container env.docker plan.target_service =
      "Error: Container '" ++ plan.target_service ++ "' not found" := by
    unfold restart_container; rw [hmiss]
  rw [hmsg] at h1 h2
  refine ⟨?_, ?_, hmsg, ?_, ?_, by decide, by decide⟩
  · intro env2 s2 p2 hp2 ha2
    simp [mitigation_node, mitigation_agent, hp2, ha2]
  · intro env2 s2 p2 hp2 ha2
    simp [mitigation_node, mitigation_agent, hp2, ha2]
  · simp [mitigation_node, mitigation_agent, hp, ha, hmsg, h1, h2]
  · simp [mitigation_node, mitigation_agent, hp, ha, hmsg, h1, h2]
    rw [String.append_assoc]
    congr 1

theorem c6_unknown_target_amended_witness :
    (dbState.mitigation_plan = some dbPlan ∧
     dbPlan.action_type = "restart_container" ∧
     getContainer noContainersEnv.docker.containers dbPlan.target_service = none ∧
     strHas (pyLower (restart_container noContainersEnv.docker dbPlan.target_service))
       "successfully" = false ∧
     strHas (pyLower (restart_container noContainersEnv.docker dbPlan.target_service))
       "restarted" = false) ∧
    ((∀ (env2 : MitigationEnv) (s2 : SystemState) (p2 : MitigationPlan),
        s2.mitigation_plan = some p2 → p2.action_type = "restart_container" →
        (mitigation_node env2 s2).calls = [CtrlCall.restart p2.target_service]) ∧
     (∀ (env2 : MitigationEnv) (s2 : SystemState) (p2 : MitigationPlan),
        s2.mitigation_plan = some p2 → p2.action_type = "restart_container" →
        (mitigation_node env2 s2).state.mitigation_result.map (fun m => m.success) =
          some (strHas (pyLower (restart_container env2.docker p2.target_service))
              "successfully"
            || strHas (pyLower (restart_container env2.docker p2.target_service))
              "restarted")) ∧
     restart_container noContainersEnv.docker "db-service" =
       "Error: Container 'db-service' not found" ∧
     (mitigation_node noContainersEnv dbState).state.mitigation_result =
       some ⟨false, "restart_container", "Error: Container 'db-service' not found",
         "db-service"⟩ ∧
     (mitigation_node noContainersEnv dbState).state.actions_taken =
       dbState.actions_taken ++ ["Restart container: db-service → FAILED"] ∧
     getContainer noContainersEnv.docker.containers "restarted-db" = none ∧
     (mitigation_node noContainersEnv restartedDbState).state.mitigation_result =
       some ⟨true, "restart_container", "Error: Container 'restarted-db' not found",
         "restarted-db"⟩) :=
  ⟨⟨by decide, by decide, by decide, by decide, by decide⟩,
   c6_unknown_target_amended noContainersEnv dbState dbPlan (by decide) (by decide)
     (by decide) (by decide) (by decide)⟩

/-- A plan with the reserved, unimplemented scale action. -/
def scalePlan : MitigationPlan :=
  ⟨"sustained load spike", "order-service", "scale_service", none,
   "scale out", "adds replicas"⟩

/-- A state about to execute the scale plan. -/
def scaleState : SystemState :=
  { initState 3 with symptoms := [symptomA], mitigation_plan := some scalePlan }

/-- C10: a plan whose action is none of restart_container / update_config /
rollback_config makes no controller call; the recorded result has
`success = false`, `action_taken` equal to the plan's action, and the
`Unknown action type` message; every mitigation pass is followed by a
verification pass. -/
theorem c10_unknown_action_type (env : MitigationEnv) (s : SystemState)
    (plan : MitigationPlan) (hp : s.mitigation_plan = some plan)
    (h1 : plan.action_type ≠ "restart_container")
    (h2 : plan.action_type ≠ "update_config")
    (h3 : plan.action_type ≠ "rollback_config") :
    (mitigation_node env s).calls = [] ∧
    (mitigation_node env s).state.mitigation_result =
      some ⟨false, plan.action_type, "Unknown action type: " ++ plan.action_type,
        plan.target_service⟩ ∧
    (∀ env2 fuel s2, (loopF env2 fuel s2).nVerify = (loopF env2 fuel s2).nMit) := by
  refine ⟨?_, ?_, loopF_verify_eq_mit⟩ <;>
    simp [mitigation_node, mitigation_agent, hp, beq_iff_eq, h1, h2, h3]

theorem c10_unknown_action_type_witness :
    (scaleState.mitigation_plan = some scalePlan ∧
     scalePlan.action_type ≠ "restart_container" ∧
     scalePlan.action_type ≠ "update_config" ∧
     scalePlan.action_type ≠ "rollback_config") ∧
    ((mitigation_node noContainersEnv scaleState).calls = [] ∧
     (mitigation_node noContainersEnv scaleState).state.mitigation_result =
       some ⟨false, "scale_service", "Unknown action type: scale_service",
         "order-service"⟩ ∧
     (∀ env2 fuel s2, (loopF env2 fuel s2).nVerify = (loopF env2 fuel s2).nMit)) :=
  ⟨⟨by decide, by decide, by decide, by decide⟩,
   c10_unknown_action_type noContainersEnv scaleState scalePlan (by decide)
     (by decide) (by decide) (by decide)⟩
